import Mathlib

set_option linter.unusedVariables false

/-!
Verification of the OpenGL stub library `gl_nullify.c`.

The library intercepts OpenGL entry points and replaces them with no-ops or
trivially successful stand-ins.  Its only persistent state is the global
counter `static unsigned int fake_id = 1`, used to hand out fake identifiers.
We embed each intercepted function as a Lean function in explicit
state-passing style: the C global variable becomes a `GLState` record that is
threaded through every call, output parameters (`unsigned int*`, `int*`)
become returned values, and a possibly-null output pointer becomes a `Bool`
flag (`true` = non-null) with the performed write modelled as an
`Option Int` result (`none` = nothing written).  The C type `unsigned int`
is modelled as `Nat` reduced modulo `2 ^ 32` at every update, and C `int`
arguments as `Int`.
-/

/-- Modulus of the C type `unsigned int` that holds the identifier counter. -/
def UINT_MOD : Nat := 2 ^ 32

/-- A possibly-null C pointer whose pointee is never inspected by the stub
(`const void*`, display handles, and so on). -/
abbrev Ptr := Option Unit

/-- Process-wide state of the library: the counter of
`static unsigned int fake_id = 1` used for generating fake identifiers.
Reachable states always satisfy `fake_id < UINT_MOD`, since every update
goes through `% UINT_MOD`. -/
structure GLState where
  fake_id : Nat
deriving DecidableEq

/-- State at library load: `fake_id = 1`. -/
def initState : GLState := ⟨1⟩

/-- The allocation loop `for (i = 0; i < n; i++) out[i] = fake_id++;` shared
by the four `glGen*` functions: given the current counter and the number of
iterations, it returns the list of identifiers written to the output array
and the final counter value.  The post-increment of the 32-bit counter wraps
modulo `UINT_MOD`. -/
def genLoop : Nat → Nat → List Nat × Nat
  | k, 0 => ([], k)
  | k, m + 1 =>
    let r := genLoop ((k + 1) % UINT_MOD) m
    (k :: r.1, r.2)

-- ============ DRAW CALLS ============

/-- Stub for `glDrawArrays`: logs and returns, touching no state. -/
def glDrawArrays (mode first count : Int) (s : GLState) : GLState := s

/-- Stub for `glDrawElements`. -/
def glDrawElements (mode count ty : Int) (indices : Ptr) (s : GLState) : GLState := s

/-- Stub for `glDrawArraysInstanced`. -/
def glDrawArraysInstanced (mode first count instancecount : Int) (s : GLState) : GLState := s

/-- Stub for `glDrawElementsInstanced`. -/
def glDrawElementsInstanced (mode count ty : Int) (indices : Ptr) (instancecount : Int)
    (s : GLState) : GLState := s

-- ============ BUFFER SWAP ============

/-- Stub for `glXSwapBuffers`. -/
def glXSwapBuffers (dpy drawable : Ptr) (s : GLState) : GLState := s

-- ============ CLEAR OPERATIONS ============

/-- Stub for `glClear` (`mask` is a C `unsigned int`). -/
def glClear (mask : Nat) (s : GLState) : GLState := s

/-- Stub for `glClearColor`. -/
def glClearColor (r g b a : Float) (s : GLState) : GLState := s

-- ============ TEXTURE OPERATIONS ============

/-- Stub for `glGenTextures`: runs the allocation loop `n` times (a
nonpositive C `int` count gives zero iterations) and stores the final
counter back into the global state. -/
def glGenTextures (n : Int) (s : GLState) : List Nat × GLState :=
  let r := genLoop s.fake_id n.toNat
  (r.1, ⟨r.2⟩)

/-- Stub for `glDeleteTextures`: logs and returns; no state is touched. -/
def glDeleteTextures (n : Int) (textures : List Nat) (s : GLState) : GLState := s

/-- Stub for `glBindTexture`. -/
def glBindTexture (target : Int) (texture : Nat) (s : GLState) : GLState := s

/-- Stub for `glTexImage2D`. -/
def glTexImage2D (target level internalformat width height border format ty : Int)
    (data : Ptr) (s : GLState) : GLState := s

/-- Stub for `glTexSubImage2D`. -/
def glTexSubImage2D (target level xoffset yoffset width height format ty : Int)
    (data : Ptr) (s : GLState) : GLState := s

-- ============ BUFFER OPERATIONS ============

/-- Stub for `glGenBuffers`: same allocation loop as `glGenTextures`. -/
def glGenBuffers (n : Int) (s : GLState) : List Nat × GLState :=
  let r := genLoop s.fake_id n.toNat
  (r.1, ⟨r.2⟩)

/-- Stub for `glDeleteBuffers`. -/
def glDeleteBuffers (n : Int) (buffers : List Nat) (s : GLState) : GLState := s

/-- Stub for `glBindBuffer`. -/
def glBindBuffer (target : Int) (buffer : Nat) (s : GLState) : GLState := s

/-- Stub for `glBufferData`. -/
def glBufferData (target : Int) (size : Int) (data : Ptr) (usage : Int)
    (s : GLState) : GLState := s

/-- Stub for `glBufferSubData`. -/
def glBufferSubData (target : Int) (offset size : Int) (data : Ptr)
    (s : GLState) : GLState := s

-- ============ SHADER OPERATIONS ============

/-- Stub for `glCreateShader`: `return fake_id++;` with the 32-bit
post-increment. -/
def glCreateShader (ty : Int) (s : GLState) : Nat × GLState :=
  (s.fake_id, ⟨(s.fake_id + 1) % UINT_MOD⟩)

/-- Stub for `glDeleteShader`. -/
def glDeleteShader (shader : Nat) (s : GLState) : GLState := s

/-- Stub for `glShaderSource`: the source strings are ignored. -/
def glShaderSource (shader : Nat) (count : Int) (strings : List String)
    (lengths : Option (List Int)) (s : GLState) : GLState := s

/-- Stub for `glCompileShader`: nothing is compiled. -/
def glCompileShader (shader : Nat) (s : GLState) : GLState := s

/-- Stub for `glCreateProgram`: `return fake_id++;` with the 32-bit
post-increment. -/
def glCreateProgram (s : GLState) : Nat × GLState :=
  (s.fake_id, ⟨(s.fake_id + 1) % UINT_MOD⟩)

/-- Stub for `glDeleteProgram`. -/
def glDeleteProgram (program : Nat) (s : GLState) : GLState := s

/-- Stub for `glAttachShader`. -/
def glAttachShader (program shader : Nat) (s : GLState) : GLState := s

/-- Stub for `glLinkProgram`: nothing is linked. -/
def glLinkProgram (program : Nat) (s : GLState) : GLState := s

/-- Stub for `glUseProgram`. -/
def glUseProgram (program : Nat) (s : GLState) : GLState := s

-- ============ VAO OPERATIONS ============

/-- Stub for `glGenVertexArrays`: same allocation loop as `glGenTextures`. -/
def glGenVertexArrays (n : Int) (s : GLState) : List Nat × GLState :=
  let r := genLoop s.fake_id n.toNat
  (r.1, ⟨r.2⟩)

/-- Stub for `glDeleteVertexArrays`. -/
def glDeleteVertexArrays (n : Int) (arrays : List Nat) (s : GLState) : GLState := s

/-- Stub for `glBindVertexArray`. -/
def glBindVertexArray (array : Nat) (s : GLState) : GLState := s

-- ============ STATE CHANGES ============

/-- Stub for `glEnable`. -/
def glEnable (cap : Int) (s : GLState) : GLState := s

/-- Stub for `glDisable`. -/
def glDisable (cap : Int) (s : GLState) : GLState := s

/-- Stub for `glBlendFunc`. -/
def glBlendFunc (sfactor dfactor : Int) (s : GLState) : GLState := s

/-- Stub for `glViewport`. -/
def glViewport (x y width height : Int) (s : GLState) : GLState := s

/-- Stub for `glScissor`. -/
def glScissor (x y width height : Int) (s : GLState) : GLState := s

-- ============ FRAMEBUFFER OPERATIONS ============

/-- Stub for `glGenFramebuffers`: same allocation loop as `glGenTextures`. -/
def glGenFramebuffers (n : Int) (s : GLState) : List Nat × GLState :=
  let r := genLoop s.fake_id n.toNat
  (r.1, ⟨r.2⟩)

/-- Stub for `glDeleteFramebuffers`. -/
def glDeleteFramebuffers (n : Int) (framebuffers : List Nat) (s : GLState) : GLState := s

/-- Stub for `glBindFramebuffer`. -/
def glBindFramebuffer (target : Int) (framebuffer : Nat) (s : GLState) : GLState := s

/-- Stub for `glCheckFramebufferStatus`: `return 0x8CD5;`
(GL_FRAMEBUFFER_COMPLETE), whatever the target. -/
def glCheckFramebufferStatus (target : Int) (s : GLState) : Int × GLState :=
  (0x8CD5, s)

-- ============ QUERY FUNCTIONS ============

/-- Stub for `glGetIntegerv`: `if (params) *params = 1;`.  The first
component is the value written through the output pointer, `none` when the
pointer is null and the write is skipped. -/
def glGetIntegerv (pname : Int) (paramsProvided : Bool) (s : GLState) :
    Option Int × GLState :=
  (if paramsProvided then some 1 else none, s)

/-- Stub for `glGetString`: the switch over the four recognised property
names, falling through to the empty string. -/
def glGetString (name : Int) (s : GLState) : String × GLState :=
  (if name = 0x1F00 then "GL Nullify"
   else if name = 0x1F01 then "Null Renderer"
   else if name = 0x1F02 then "4.5"
   else if name = 0x1F03 then ""
   else "", s)

/-- Stub for `glGetError`: `return 0;` (GL_NO_ERROR). -/
def glGetError (s : GLState) : Int × GLState := (0, s)

/-- Stub for `glGetShaderiv`: when the output pointer is non-null, writes 1
for `pname = 0x8B81` (GL_COMPILE_STATUS) and 0 otherwise. -/
def glGetShaderiv (shader : Nat) (pname : Int) (paramsProvided : Bool)
    (s : GLState) : Option Int × GLState :=
  (if paramsProvided then (if pname = 0x8B81 then some 1 else some 0) else none, s)

/-- Stub for `glGetProgramiv`: when the output pointer is non-null, writes 1
for `pname = 0x8B82` (GL_LINK_STATUS) and 0 otherwise. -/
def glGetProgramiv (program : Nat) (pname : Int) (paramsProvided : Bool)
    (s : GLState) : Option Int × GLState :=
  (if paramsProvided then (if pname = 0x8B82 then some 1 else some 0) else none, s)

-- ============ CALL TRACES OVER THE ALLOCATING FUNCTIONS ============

/-- One call to an identifier-allocating entry point, with its count or
shader-type argument (a C `int`). -/
inductive GLCall where
  | genTextures (n : Int)
  | genBuffers (n : Int)
  | genVertexArrays (n : Int)
  | genFramebuffers (n : Int)
  | createShader (ty : Int)
  | createProgram
deriving DecidableEq

/-- Execute one allocating call: the identifiers it emits (written to the
output array, or returned directly by the single-object creates) and the
state after the call. -/
def execCall : GLCall → GLState → List Nat × GLState
  | .genTextures n, s => glGenTextures n s
  | .genBuffers n, s => glGenBuffers n s
  | .genVertexArrays n, s => glGenVertexArrays n s
  | .genFramebuffers n, s => glGenFramebuffers n s
  | .createShader t, s => let r := glCreateShader t s; ([r.1], r.2)
  | .createProgram, s => let r := glCreateProgram s; ([r.1], r.2)

/-- Number of identifiers a call emits: the (clamped) count for the
generate functions, one for the single-object creates. -/
def allocCount : GLCall → Nat
  | .genTextures n => n.toNat
  | .genBuffers n => n.toNat
  | .genVertexArrays n => n.toNat
  | .genFramebuffers n => n.toNat
  | .createShader _ => 1
  | .createProgram => 1

/-- Total number of identifiers emitted along a trace. -/
def totalAlloc (tr : List GLCall) : Nat := (tr.map allocCount).sum

/-- Execute a trace of allocating calls from a given state, concatenating
the emitted identifiers in order. -/
def execTrace : List GLCall → GLState → List Nat × GLState
  | [], s => ([], s)
  | c :: cs, s =>
    let r := execCall c s
    let r2 := execTrace cs r.2
    (r.1 ++ r2.1, r2.2)

/-- All identifiers emitted by a trace run from library load. -/
def emitted (tr : List GLCall) : List Nat := (execTrace tr initState).1

/-- A trace whose 4294967296th allocation wraps the 32-bit counter past 0:
two maximal-count generate calls (`n = 2^31 - 1`, the largest C `int`)
followed by two single-object creates. -/
def wrapTrace : List GLCall :=
  [GLCall.genTextures 2147483647, GLCall.genTextures 2147483647,
   GLCall.createShader 0, GLCall.createProgram]

-- ============ HELPER LEMMAS ============

/-- As long as the counter does not wrap, the allocation loop writes the
consecutive identifiers `k, k+1, ..., k+m-1` and leaves the counter at
`(k + m) % UINT_MOD`. -/
theorem genLoop_no_wrap (m : Nat) : ∀ k : Nat, k < UINT_MOD → k + m ≤ UINT_MOD →
    genLoop k m = (List.range' k m, (k + m) % UINT_MOD) := by
  induction m with
  | zero =>
    intro k hk _
    simp [genLoop, Nat.mod_eq_of_lt hk]
  | succ m ih =>
    intro k hk h
    by_cases hk1 : k + 1 < UINT_MOD
    · have hrec := ih (k + 1) hk1 (by omega)
      simp only [genLoop, Nat.mod_eq_of_lt hk1, hrec, List.range'_succ]
      have hadd : k + 1 + m = k + (m + 1) := by omega
      rw [hadd]
    · have heq : k + 1 = UINT_MOD := by omega
      have hm0 : m = 0 := by omega
      subst hm0
      have hz : (k + 1) % UINT_MOD = 0 := by rw [heq, Nat.mod_self]
      simp [genLoop, hz, List.range'_succ]

/-- One allocating call from a non-wrapping counter value `k` emits the
consecutive identifiers `k, ..., k + allocCount c - 1` and leaves the
counter at `(k + allocCount c) % UINT_MOD`. -/
theorem execCall_no_wrap (c : GLCall) (k : Nat) (hk : k < UINT_MOD)
    (h : k + allocCount c ≤ UINT_MOD) :
    execCall c ⟨k⟩ = (List.range' k (allocCount c), ⟨(k + allocCount c) % UINT_MOD⟩) := by
  cases c with
  | genTextures n =>
    simp only [execCall, glGenTextures, allocCount] at *
    rw [genLoop_no_wrap n.toNat k hk h]
  | genBuffers n =>
    simp only [execCall, glGenBuffers, allocCount] at *
    rw [genLoop_no_wrap n.toNat k hk h]
  | genVertexArrays n =>
    simp only [execCall, glGenVertexArrays, allocCount] at *
    rw [genLoop_no_wrap n.toNat k hk h]
  | genFramebuffers n =>
    simp only [execCall, glGenFramebuffers, allocCount] at *
    rw [genLoop_no_wrap n.toNat k hk h]
  | createShader t =>
    simp [execCall, glCreateShader, allocCount, List.range'_succ]
  | createProgram =>
    simp [execCall, glCreateProgram, allocCount, List.range'_succ]

/-- A call that allocates nothing (a generate call with nonpositive count)
emits nothing and leaves the state alone. -/
theorem execCall_allocCount_zero (c : GLCall) (s : GLState)
    (h : allocCount c = 0) : execCall c s = ([], s) := by
  cases c with
  | genTextures n =>
    simp only [allocCount] at h
    simp [execCall, glGenTextures, h, genLoop]
  | genBuffers n =>
    simp only [allocCount] at h
    simp [execCall, glGenBuffers, h, genLoop]
  | genVertexArrays n =>
    simp only [allocCount] at h
    simp [execCall, glGenVertexArrays, h, genLoop]
  | genFramebuffers n =>
    simp only [allocCount] at h
    simp [execCall, glGenFramebuffers, h, genLoop]
  | createShader t => simp [allocCount] at h
  | createProgram => simp [allocCount] at h

/-- A trace with a zero total allocation count emits nothing and leaves the
state alone. -/
theorem execTrace_allocCount_zero : ∀ (tr : List GLCall) (s : GLState),
    totalAlloc tr = 0 → execTrace tr s = ([], s) := by
  intro tr
  induction tr with
  | nil => intro s _; rfl
  | cons c cs ih =>
    intro s h
    simp only [totalAlloc, List.map_cons, List.sum_cons, Nat.add_eq_zero] at h
    have h1 := execCall_allocCount_zero c s h.1
    have h2 := ih s h.2
    simp [execTrace, h1, h2]

/-- Running a trace from a non-wrapping counter value `k` emits exactly the
consecutive identifiers `k, ..., k + totalAlloc tr - 1` and leaves the
counter at `(k + totalAlloc tr) % UINT_MOD`. -/
theorem execTrace_no_wrap : ∀ (tr : List GLCall) (k : Nat), k < UINT_MOD →
    k + totalAlloc tr ≤ UINT_MOD →
    execTrace tr ⟨k⟩ = (List.range' k (totalAlloc tr), ⟨(k + totalAlloc tr) % UINT_MOD⟩) := by
  intro tr
  induction tr with
  | nil =>
    intro k hk _
    simp [execTrace, totalAlloc, Nat.mod_eq_of_lt hk]
  | cons c cs ih =>
    intro k hk h
    have htot : totalAlloc (c :: cs) = allocCount c + totalAlloc cs := by
      simp [totalAlloc]
    rw [htot] at h ⊢
    have hc := execCall_no_wrap c k hk (by omega)
    by_cases hmid : k + allocCount c < UINT_MOD
    · have hmod : (k + allocCount c) % UINT_MOD = k + allocCount c :=
        Nat.mod_eq_of_lt hmid
      rw [hmod] at hc
      have hrest := ih (k + allocCount c) hmid (by omega)
      simp only [execTrace, hc, hrest, List.range'_append_1]
      have hadd : totalAlloc cs + allocCount c = allocCount c + totalAlloc cs := by omega
      have hadd2 : k + allocCount c + totalAlloc cs = k + (allocCount c + totalAlloc cs) := by
        omega
      rw [hadd, hadd2]
    · have heq : k + allocCount c = UINT_MOD := by omega
      have hT0 : totalAlloc cs = 0 := by omega
      have hmod : (k + allocCount c) % UINT_MOD = 0 := by rw [heq, Nat.mod_self]
      rw [hmod] at hc
      have hrest := execTrace_allocCount_zero cs ⟨0⟩ hT0
      simp only [execTrace, hc, hrest, hT0, List.range'_zero, List.append_nil,
        Nat.add_zero, hmod]

/-- Splitting a trace splits the emitted identifiers and threads the state. -/
theorem execTrace_append : ∀ (tr1 tr2 : List GLCall) (s : GLState),
    execTrace (tr1 ++ tr2) s =
      ((execTrace tr1 s).1 ++ (execTrace tr2 (execTrace tr1 s).2).1,
       (execTrace tr2 (execTrace tr1 s).2).2) := by
  intro tr1
  induction tr1 with
  | nil => intro tr2 s; rfl
  | cons c cs ih =>
    intro tr2 s
    simp only [List.cons_append, execTrace, List.append_eq, ih, List.append_assoc]

-- ============ CLAIM THEOREMS ============

/-- C3: for every state (hence after any call history, including the empty
one) the shader-compile-status query (`glGetShaderiv` with
`pname = 0x8B81`) writes success `1` through a non-null output pointer, and
the program-link-status query (`glGetProgramiv` with `pname = 0x8B82`)
writes success `1` as well, regardless of any prior `glShaderSource`,
`glCompileShader` or `glLinkProgram` calls. -/
theorem shader_and_program_status_success (s : GLState) (shader program : Nat) :
    (glGetShaderiv shader 0x8B81 true s).1 = some 1 ∧
    (glGetProgramiv program 0x8B82 true s).1 = some 1 := by
  constructor <;> rfl

/-- C4: for every state (hence at any point in any call sequence, any
number of times) `glGetError` returns the fixed no-error value `0`. -/
theorem glGetError_always_no_error (s : GLState) : (glGetError s).1 = 0 := rfl

/-- C5: for every target argument and every state,
`glCheckFramebufferStatus` returns the fixed framebuffer-complete status
code `0x8CD5` (GL_FRAMEBUFFER_COMPLETE). -/
theorem framebuffer_status_always_complete (target : Int) (s : GLState) :
    (glCheckFramebufferStatus target s).1 = 0x8CD5 := rfl

/-- C6: `glGetString` returns the exact fixed string for each of the four
defined property identifiers (`0x1F00` vendor, `0x1F01` renderer, `0x1F02`
version, `0x1F03` extensions) and the empty string for every other name. -/
theorem getString_fixed_and_default (s : GLState) (name : Int)
    (h0 : name ≠ 0x1F00) (h1 : name ≠ 0x1F01) (h2 : name ≠ 0x1F02)
    (h3 : name ≠ 0x1F03) :
    (glGetString 0x1F00 s).1 = "GL Nullify" ∧
    (glGetString 0x1F01 s).1 = "Null Renderer" ∧
    (glGetString 0x1F02 s).1 = "4.5" ∧
    (glGetString 0x1F03 s).1 = "" ∧
    (glGetString name s).1 = "" := by
  refine ⟨rfl, rfl, rfl, rfl, ?_⟩
  simp [glGetString, h0, h1, h2, h3]

/-- Witness for C6 at the unrecognised name 5 and the initial state. -/
theorem getString_fixed_and_default_witness :
    ((5 : Int) ≠ 0x1F00) ∧ ((5 : Int) ≠ 0x1F01) ∧ ((5 : Int) ≠ 0x1F02) ∧
    ((5 : Int) ≠ 0x1F03) ∧
    ((glGetString 0x1F00 initState).1 = "GL Nullify" ∧
     (glGetString 0x1F01 initState).1 = "Null Renderer" ∧
     (glGetString 0x1F02 initState).1 = "4.5" ∧
     (glGetString 0x1F03 initState).1 = "" ∧
     (glGetString 5 initState).1 = "") :=
  ⟨by decide, by decide, by decide, by decide,
   getString_fixed_and_default initState 5 (by decide) (by decide) (by decide)
     (by decide)⟩

/-- C7: for every parameter name and state, `glGetIntegerv` writes exactly
the fixed default value `1` when the output pointer is non-null, and
performs no write at all when it is null. -/
theorem glGetIntegerv_writes_one_or_skips (pname : Int) (s : GLState) :
    (glGetIntegerv pname true s).1 = some 1 ∧
    (glGetIntegerv pname false s).1 = none := by
  constructor <;> rfl

/-- C8: every delete call, on any identifier list or single identifier
(previously issued or not) and in any state, returns without any failure
channel and leaves the state (hence the identifier counter) unchanged;
applied repeatedly this stays true since each call is the identity on the
state. -/
theorem delete_calls_no_effect (n : Int) (ids : List Nat) (u v : Nat)
    (s : GLState) :
    glDeleteTextures n ids s = s ∧ glDeleteBuffers n ids s = s ∧
    glDeleteShader u s = s ∧ glDeleteProgram v s = s ∧
    glDeleteVertexArrays n ids s = s ∧ glDeleteFramebuffers n ids s = s :=
  ⟨rfl, rfl, rfl, rfl, rfl, rfl⟩

/-- C10: a generate call with count `n ≤ 0` writes nothing to the output
array (so a null output pointer is never dereferenced) and leaves the
identifier counter unchanged, for all four generate functions. -/
theorem gen_nonpositive_no_write (n : Int) (hn : n ≤ 0) (s : GLState) :
    glGenTextures n s = ([], s) ∧ glGenBuffers n s = ([], s) ∧
    glGenVertexArrays n s = ([], s) ∧ glGenFramebuffers n s = ([], s) := by
  have h : n.toNat = 0 := Int.toNat_of_nonpos hn
  refine ⟨?_, ?_, ?_, ?_⟩ <;>
    simp [glGenTextures, glGenBuffers, glGenVertexArrays, glGenFramebuffers, h,
      genLoop]

/-- Witness for C10 at count `-1` and the initial state. -/
theorem gen_nonpositive_no_write_witness :
    ((-1 : Int) ≤ 0) ∧
    (glGenTextures (-1) initState = ([], initState) ∧
     glGenBuffers (-1) initState = ([], initState) ∧
     glGenVertexArrays (-1) initState = ([], initState) ∧
     glGenFramebuffers (-1) initState = ([], initState)) :=
  ⟨by decide, gen_nonpositive_no_write (-1) (by decide) initState⟩

/-- C1 (amended): across any sequence of calls mixing the six allocating
functions with arbitrary counts, as long as the total number of
identifiers allocated in the process is at most `2^32 - 1` (so the 32-bit
counter never wraps), every identifier emitted is pairwise distinct and
nonzero; in particular `glCreateShader` and `glCreateProgram` never
return 0 under that bound. -/
theorem alloc_ids_nodup_nonzero_of_no_wrap (tr : List GLCall)
    (h : 1 + totalAlloc tr ≤ UINT_MOD) :
    (emitted tr).Nodup ∧ ∀ x ∈ emitted tr, x ≠ 0 := by
  have h1 : (1 : Nat) < UINT_MOD := by decide
  have he : emitted tr = List.range' 1 (totalAlloc tr) := by
    show (execTrace tr ⟨1⟩).1 = _
    rw [execTrace_no_wrap tr 1 h1 h]
  rw [he]
  constructor
  · exact List.nodup_range' 1 (totalAlloc tr)
  · intro x hx
    rw [List.mem_range'_1] at hx
    omega

/-- Witness for C1 on a small mixed trace. -/
theorem alloc_ids_nodup_nonzero_witness :
    (1 + totalAlloc [GLCall.genTextures 3, GLCall.createShader 0,
        GLCall.createProgram] ≤ UINT_MOD) ∧
    ((emitted [GLCall.genTextures 3, GLCall.createShader 0,
        GLCall.createProgram]).Nodup ∧
      ∀ x ∈ emitted [GLCall.genTextures 3, GLCall.createShader 0,
        GLCall.createProgram], x ≠ 0) :=
  ⟨by decide,
   alloc_ids_nodup_nonzero_of_no_wrap
     [GLCall.genTextures 3, GLCall.createShader 0, GLCall.createProgram]
     (by decide)⟩

/-- Counterexample to C1 as stated: on `wrapTrace` — two generate calls of
the maximal C `int` count `2^31 - 1` followed by two single-object
creates — the 32-bit counter wraps past zero and the final
`glCreateProgram` call returns the identifier 0, so the emitted
identifiers are not all nonzero. -/
theorem alloc_ids_zero_after_wrap :
    ¬ ((emitted wrapTrace).Nodup ∧ ∀ x ∈ emitted wrapTrace, x ≠ 0) := by
  intro hcl
  have hpre : execTrace [GLCall.genTextures 2147483647,
      GLCall.genTextures 2147483647, GLCall.createShader 0] (⟨1⟩ : GLState)
      = (List.range' 1 4294967295, ⟨0⟩) := by
    have hr := execTrace_no_wrap [GLCall.genTextures 2147483647,
      GLCall.genTextures 2147483647, GLCall.createShader 0] 1 (by decide)
      (by decide)
    have ht : totalAlloc [GLCall.genTextures 2147483647,
        GLCall.genTextures 2147483647, GLCall.createShader 0] = 4294967295 := by
      decide
    rw [ht] at hr
    have hm : (1 + 4294967295) % UINT_MOD = 0 := by decide
    rw [hm] at hr
    exact hr
  have hsplit : wrapTrace = [GLCall.genTextures 2147483647,
      GLCall.genTextures 2147483647, GLCall.createShader 0] ++
      [GLCall.createProgram] := rfl
  have h0 : 0 ∈ emitted wrapTrace := by
    show 0 ∈ (execTrace wrapTrace ⟨1⟩).1
    rw [hsplit, execTrace_append, hpre]
    simp [execTrace, execCall, glCreateProgram]
  exact hcl.2 0 h0 rfl

/-- C2 (amended): after any allocation history `tr` run from library load,
let `k` be the counter's current value; a generate call with count `n`
writes the `n.toNat` consecutive identifiers `k, k+1, ..., k+n-1` into the
caller-supplied output array, leaves the counter at `k + n`, and each
written identifier is distinct from every previously issued identifier of
the run — provided the counter value `k + n` stays below `2^32`, so that
the 32-bit counter does not wrap. -/
theorem gen_writes_consecutive_of_no_wrap (tr : List GLCall) (c : GLCall)
    (n : Int)
    (hc : c = GLCall.genTextures n ∨ c = GLCall.genBuffers n ∨
          c = GLCall.genVertexArrays n ∨ c = GLCall.genFramebuffers n)
    (h : 1 + totalAlloc tr + n.toNat < UINT_MOD) :
    (execCall c (execTrace tr initState).2).1
        = List.range' (execTrace tr initState).2.fake_id n.toNat ∧
    (execCall c (execTrace tr initState).2).2.fake_id
        = (execTrace tr initState).2.fake_id + n.toNat ∧
    ∀ x ∈ (execCall c (execTrace tr initState).2).1,
        x ∉ (execTrace tr initState).1 := by
  have h1 : (1 : Nat) < UINT_MOD := by decide
  have het := execTrace_no_wrap tr 1 h1 (by omega)
  have hmod : (1 + totalAlloc tr) % UINT_MOD = 1 + totalAlloc tr :=
    Nat.mod_eq_of_lt (by omega)
  rw [hmod] at het
  have hinit : initState = (⟨1⟩ : GLState) := rfl
  rw [hinit, het]
  have hcall := execCall_no_wrap c (1 + totalAlloc tr) (by omega) ?hbound
  case hbound =>
    have hac : allocCount c = n.toNat := by
      rcases hc with rfl | rfl | rfl | rfl <;> rfl
    omega
  have hac : allocCount c = n.toNat := by
    rcases hc with rfl | rfl | rfl | rfl <;> rfl
  rw [hac] at hcall
  have hmod2 : (1 + totalAlloc tr + n.toNat) % UINT_MOD
      = 1 + totalAlloc tr + n.toNat := Nat.mod_eq_of_lt (by omega)
  rw [hmod2] at hcall
  rw [hcall]
  refine ⟨rfl, rfl, ?_⟩
  intro x hx hmem
  rw [List.mem_range'_1] at hx hmem
  omega

/-- Witness for C2: one prior create, then a generate call of count 3. -/
theorem gen_writes_consecutive_witness :
    (GLCall.genTextures 3 = GLCall.genTextures 3 ∨
     GLCall.genTextures 3 = GLCall.genBuffers 3 ∨
     GLCall.genTextures 3 = GLCall.genVertexArrays 3 ∨
     GLCall.genTextures 3 = GLCall.genFramebuffers 3) ∧
    (1 + totalAlloc [GLCall.createShader 0] + (3 : Int).toNat < UINT_MOD) ∧
    ((execCall (GLCall.genTextures 3)
        (execTrace [GLCall.createShader 0] initState).2).1
      = List.range' (execTrace [GLCall.createShader 0] initState).2.fake_id
          (3 : Int).toNat ∧
     (execCall (GLCall.genTextures 3)
        (execTrace [GLCall.createShader 0] initState).2).2.fake_id
      = (execTrace [GLCall.createShader 0] initState).2.fake_id
          + (3 : Int).toNat ∧
     ∀ x ∈ (execCall (GLCall.genTextures 3)
        (execTrace [GLCall.createShader 0] initState).2).1,
        x ∉ (execTrace [GLCall.createShader 0] initState).1) :=
  ⟨by decide, by decide,
   gen_writes_consecutive_of_no_wrap [GLCall.createShader 0]
     (GLCall.genTextures 3) 3 (by decide) (by decide)⟩

/-- Counterexample to C2 as stated: the counter value `k = 2^32 - 1` is
reachable (here by two maximal-count generate calls from library load),
and there `glGenTextures` with `n = 2` writes `[2^32 - 1, 0]` instead of
the consecutive `[k, k + 1] = [2^32 - 1, 2^32]`, and leaves the counter at
1 (having wrapped past 0) instead of `k + 2`. -/
theorem gen_not_consecutive_at_wrap :
    (execTrace [GLCall.genTextures 2147483647, GLCall.genTextures 2147483647]
        initState).2 = (⟨4294967295⟩ : GLState) ∧
    (glGenTextures 2 (⟨4294967295⟩ : GLState)).1 = [4294967295, 0] ∧
    (glGenTextures 2 (⟨4294967295⟩ : GLState)).2 = (⟨1⟩ : GLState) ∧
    ([4294967295, 0] : List Nat) ≠ [4294967295, 4294967296] ∧
    (1 : Nat) ≠ 4294967295 + 2 := by
  refine ⟨?_, by decide, by decide, by decide, by decide⟩
  have hr := execTrace_no_wrap [GLCall.genTextures 2147483647,
    GLCall.genTextures 2147483647] 1 (by decide) (by decide)
  have ht : totalAlloc [GLCall.genTextures 2147483647,
      GLCall.genTextures 2147483647] = 4294967294 := by decide
  rw [ht] at hr
  have hm : (1 + 4294967294) % UINT_MOD = 4294967295 := by decide
  rw [hm] at hr
  show (execTrace _ (⟨1⟩ : GLState)).2 = _
  rw [hr]

/-- C9 (amended): the identifier counter is modified only by the six
allocating functions — every other intercepted entry point returns the
state unchanged.  The pure no-op stubs (draws, swap, clears, binds, data
uploads, deletes, state toggles, string and error queries) also write
nothing through any caller-visible location; the exception forced by the
counterexample is the integer and status query functions `glGetIntegerv`,
`glGetShaderiv` and `glGetProgramiv`, which do write their fixed values
through a non-null output pointer. -/
theorem non_alloc_calls_preserve_counter (a b c d e f g h : Int) (u v : Nat)
    (p q : Ptr) (r0 g0 b0 a0 : Float) (mask : Nat) (ids : List Nat)
    (srcs : List String) (lens : Option (List Int)) (pp : Bool)
    (s : GLState) :
    glDrawArrays a b c s = s ∧
    glDrawElements a b c p s = s ∧
    glDrawArraysInstanced a b c d s = s ∧
    glDrawElementsInstanced a b c p d s = s ∧
    glXSwapBuffers p q s = s ∧
    glClear mask s = s ∧
    glClearColor r0 g0 b0 a0 s = s ∧
    glDeleteTextures a ids s = s ∧
    glBindTexture a u s = s ∧
    glTexImage2D a b c d e f g h p s = s ∧
    glTexSubImage2D a b c d e f g h p s = s ∧
    glDeleteBuffers a ids s = s ∧
    glBindBuffer a u s = s ∧
    glBufferData a b p c s = s ∧
    glBufferSubData a b c p s = s ∧
    glDeleteShader u s = s ∧
    glShaderSource u a srcs lens s = s ∧
    glCompileShader u s = s ∧
    glDeleteProgram u s = s ∧
    glAttachShader u v s = s ∧
    glLinkProgram u s = s ∧
    glUseProgram u s = s ∧
    glDeleteVertexArrays a ids s = s ∧
    glBindVertexArray u s = s ∧
    glEnable a s = s ∧
    glDisable a s = s ∧
    glBlendFunc a b s = s ∧
    glViewport a b c d s = s ∧
    glScissor a b c d s = s ∧
    glDeleteFramebuffers a ids s = s ∧
    glBindFramebuffer a u s = s ∧
    (glCheckFramebufferStatus a s).2 = s ∧
    (glGetIntegerv a pp s).2 = s ∧
    (glGetString a s).2 = s ∧
    (glGetError s).2 = s ∧
    (glGetShaderiv u a pp s).2 = s ∧
    (glGetProgramiv u a pp s).2 = s :=
  ⟨rfl, rfl, rfl, rfl, rfl, rfl, rfl, rfl, rfl, rfl, rfl, rfl, rfl, rfl, rfl,
   rfl, rfl, rfl, rfl, rfl, rfl, rfl, rfl, rfl, rfl, rfl, rfl, rfl, rfl, rfl,
   rfl, rfl, rfl, rfl, rfl, rfl, rfl⟩

/-- Counterexample to C9 as stated: the claim counts all queries among the
functions that perform no write through any caller-visible location, but
`glGetIntegerv` called with a non-null output pointer does write the value
1 through it (a performed write is `some` value, a skipped write is
`none`). -/
theorem glGetIntegerv_performs_a_write :
    (glGetIntegerv 0 true initState).1 = some 1 ∧
    (glGetIntegerv 0 true initState).1 ≠ none :=
  ⟨rfl, by decide⟩
